import Mathlib

/-!
# Verification of the dispatch-queue delivery engine

A shallow embedding of `src/index.js` (class `SimpleQueue`): the FIFO
buffer, the overflow/discard policy, the retry/backoff scheduler, the
sink registration rules, the persistence snapshotting and the
public accessors, together with theorems checking the specified
properties against these definitions.

Payloads are opaque to the engine, so the embedding is parametric in a
payload type `α`.  A JavaScript object is modelled as its payload plus
the engine-managed `_retries` field (`none` models an object on which
the field is absent); the values `null` and `undefined`, which the
engine also has to confront, get their own constructors.
-/

namespace DispatchQueue

/-- From `const MAX_RETRIES = 5` (src/index.js line 11). -/
def MAX_RETRIES : Nat := 5

/-- A queue item: an opaque caller payload plus the engine-managed
`_retries` field.  `_retries = none` models an object without the
field (as submitted by the caller); the engine writes `some n`. -/
structure Item (α : Type) where
  payload : α
  _retries : Option Nat
deriving DecidableEq

/-- A JavaScript value handed to `addItem`: `undefined`, `null`, or an
object. -/
inductive JSVal (α : Type) where
  | undef : JSVal α
  | null : JSVal α
  | obj (item : Item α) : JSVal α
deriving DecidableEq

/-- An error thrown by a queue method (`TypeError` vs plain `Error`,
with its message). -/
inductive JSError where
  | typeError (msg : String) : JSError
  | error (msg : String) : JSError
deriving DecidableEq

/-- The persisted snapshot file: absent, unreadable/malformed, or a
JSON array of item objects. -/
inductive FileContent (α : Type) where
  | missing : FileContent α
  | corrupt : FileContent α
  | snapshot (items : List (Item α)) : FileContent α
deriving DecidableEq

/-- An event emitted on the queue's `EventEmitter`. -/
inductive Event (α : Type) where
  | itemAdded (item : Item α) : Event α
  | discarded (value : JSVal α) : Event α
deriving DecidableEq

/-- The mutable state of a `SimpleQueue` instance (constructor,
src/index.js lines 28-42), restricted to the fields the delivery engine
reads or writes.  `handler` records whether a local handler function is
registered (the callback itself is external code, modelled by outcome
oracles below); `file` is the content of `<name>.json`. -/
structure QueueState (α : Type) where
  data : List (Item α)
  discardedItems : List (JSVal α)
  maxSize : Nat
  handler : Bool
  webhookUrl : Option String
  webhookMethod : String
  webhookApiKey : Option String
  persistenceTimer : Bool
  file : FileContent α
  processing : Bool
deriving DecidableEq

variable {α : Type}

/-- The per-record map `item => ({ ...item, _retries: item._retries || 0 })`
applied by both `loadData` (line 66) and `saveData` (line 80). -/
def normalizeItem (it : Item α) : Item α :=
  { it with _retries := some (it._retries.getD 0) }

/-- `loadData` (lines 61-76): a missing or unparsable file yields an
empty buffer; otherwise each record gets `_retries := item._retries || 0`
and the result is truncated to `maxSize` when it is longer. -/
def loadData (maxSize : Nat) (f : FileContent α) : List (Item α) :=
  match f with
  | .missing => []
  | .corrupt => []
  | .snapshot items =>
    let d := items.map normalizeItem
    if maxSize > 0 ∧ d.length > maxSize then d.take maxSize else d

/-- `saveData` (lines 78-86): serializes the buffer, writing
`_retries: item._retries || 0` for every item. -/
def saveData (buf : List (Item α)) : FileContent α :=
  .snapshot (buf.map normalizeItem)

/-- The constructor plus `initializePersistence` (lines 14-59): fresh
fields, `loadData` from the existing file, and a periodic persistence
timer exactly when the interval is positive. -/
def createQueue (maxSize persistenceInterval : Nat) (f : FileContent α) : QueueState α :=
  { data := loadData maxSize f
    discardedItems := []
    maxSize := maxSize
    handler := false
    webhookUrl := none
    webhookMethod := "POST"
    webhookApiKey := none
    persistenceTimer := decide (0 < persistenceInterval)
    file := f
    processing := false }

/-- `getItem` (lines 153-158): returns the buffer head, removing it
when `shift` is true; `none` on an empty buffer. -/
def getItem (shift : Bool) (q : QueueState α) : Option (Item α) × QueueState α :=
  match q.data with
  | [] => (none, q)
  | item :: rest => (some item, if shift then { q with data := rest } else q)

/-- `addItem` (lines 136-151), as a state transformer returning the
new state, the thrown error if any, and the emitted events.
`undefined` is rejected up front; a full buffer (maxSize > 0 and
length >= maxSize) routes the value to the discard list; otherwise the
engine writes `item._retries = 0` — which on `null` throws a
`TypeError` before anything is pushed — then appends to the buffer
tail, emits `itemAdded` and saves.  (The trailing non-blocking
`processQueue()` kick is composed separately, see `processQueue`.) -/
def addItem (v : JSVal α) (q : QueueState α) :
    QueueState α × Option JSError × List (Event α) :=
  match v with
  | .undef => (q, some (.typeError "Cannot add undefined to the queue."), [])
  | .null =>
    if q.maxSize > 0 ∧ q.data.length ≥ q.maxSize then
      ({ q with discardedItems := q.discardedItems ++ [.null] }, none, [.discarded .null])
    else
      (q, some (.typeError "Cannot set properties of null"), [])
  | .obj it =>
    if q.maxSize > 0 ∧ q.data.length ≥ q.maxSize then
      ({ q with discardedItems := q.discardedItems ++ [.obj it] }, none,
        [.discarded (.obj it)])
    else
      let accepted := { it with _retries := some 0 }
      let d := q.data ++ [accepted]
      ({ q with data := d, file := saveData d }, none, [.itemAdded accepted])

/-- The retry scheduler's decision on a delivery failure
(lines 107-116 and 120-129): with `r = item._retries || 0`, if
`r < MAX_RETRIES` the counter becomes `r + 1` and reinsertion is
scheduled after `2 ^ r * 100` time units; otherwise the item is
dropped (only logged). -/
inductive FailAction (α : Type) where
  | reschedule (item : Item α) (delay : Nat) : FailAction α
  | drop : FailAction α
deriving DecidableEq

/-- The failure branch of the processing loop (lines 107-116, 120-129). -/
def onDeliveryFailure (item : Item α) : FailAction α :=
  let r := item._retries.getD 0
  if r < MAX_RETRIES then
    .reschedule { item with _retries := some (r + 1) } (2 ^ r * 100)
  else
    .drop

/-- The retry timer's callback body (lines 110-113, 123-126): the item
is reinserted at the head of the buffer (`unshift`), unconditionally. -/
def fireRetry (item : Item α) (data : List (Item α)) : List (Item α) :=
  item :: data

/-- The `else` branch once retries are exhausted (lines 114-116,
127-129): only `console.error` runs, so the buffer and the discard
list are returned untouched and the item is referenced by neither. -/
def dropItemEffect (data : List (Item α)) (discarded : List (JSVal α)) :
    List (Item α) × List (JSVal α) :=
  (data, discarded)

/-- A reinsertion scheduled by the retry machinery: the item (with its
incremented counter) and the backoff delay. -/
structure Scheduled (α : Type) where
  item : Item α
  delay : Nat
deriving DecidableEq

/-- One uninterrupted pass of the `while` loop of `processQueue`
(lines 97-131): pop the head, attempt delivery (the oracle `ok` says
whether the sink succeeded: the handler did not throw / the webhook
reported success), on failure apply `onDeliveryFailure`.  Returns the
attempts in pop order and the scheduled reinsertions. -/
def runLoop (ok : Item α → Bool) : List (Item α) → List (Item α) × List (Scheduled α)
  | [] => ([], [])
  | item :: rest =>
    let step := runLoop ok rest
    if ok item then (item :: step.1, step.2)
    else
      match onDeliveryFailure item with
      | .reschedule item2 d => (item :: step.1, { item := item2, delay := d } :: step.2)
      | .drop => (item :: step.1, step.2)

/-- `processQueue` (lines 88-134): a no-op re-entry when already
processing; an immediate return consuming nothing when no sink is
configured; otherwise the loop drains the buffer. -/
def processQueue (ok : Item α → Bool) (q : QueueState α) :
    QueueState α × List (Item α) × List (Scheduled α) :=
  if q.processing then (q, [], [])
  else if ¬q.handler ∧ q.webhookUrl = none then (q, [], [])
  else
    let step := runLoop ok q.data
    ({ q with data := [] }, step.1, step.2)

/-- `registerHandler` (lines 164-181) on a function argument: throws
when a webhook is registered, otherwise installs the handler (and its
`itemAdded` listener) and clears the webhook fields. -/
def registerHandler (q : QueueState α) : QueueState α × Option JSError :=
  if q.webhookUrl.isSome then
    (q, some (.error "Cannot register a handler when a webhook is already registered."))
  else
    ({ q with handler := true, webhookUrl := none, webhookApiKey := none }, none)

/-- JavaScript's `toUpperCase()` as it acts on the ASCII method
strings `registerWebhook` deals in: uppercase each Latin letter. -/
def upperChar (c : Char) : Char :=
  if 'a' ≤ c ∧ c ≤ 'z' then Char.ofNat (c.toNat - 32) else c

/-- `method.toUpperCase()` (lines 187, 195). -/
def upperString (s : String) : String :=
  ⟨s.data.map upperChar⟩

/-- `registerWebhook` (lines 183-200) on string arguments: rejects an
invalid HTTP method, throws when a handler is registered, otherwise
stores the webhook configuration (method normalized to uppercase). -/
def registerWebhook (url apiKey method : String) (q : QueueState α) :
    QueueState α × Option JSError :=
  if ¬(["GET", "POST"].contains (upperString method)) then
    (q, some (.typeError "Invalid HTTP method."))
  else if q.handler then
    (q, some (.error "Cannot register a webhook when a handler is already registered."))
  else
    ({ q with webhookUrl := some url, webhookMethod := upperString method,
              webhookApiKey := some apiKey, handler := false }, none)

/-- `drain` (lines 224-231): clear the buffer, persist the now-empty
buffer, cancel the periodic persistence timer.  The discard list is
not touched. -/
def drain (q : QueueState α) : QueueState α :=
  { q with data := [], file := saveData ([] : List (Item α)), persistenceTimer := false }

/-- `getLength` (lines 160-162). -/
def getLength (q : QueueState α) : Nat :=
  q.data.length

/-- `getDiscardedItems` (lines 254-256). -/
def getDiscardedItems (q : QueueState α) : List (JSVal α) :=
  q.discardedItems

/-- Submitting a list of caller objects (payloads without a `_retries`
field) one after the other via `addItem`, keeping the state. -/
def addAllObjs (ps : List α) (q : QueueState α) : QueueState α :=
  ps.foldl (fun acc p => (addItem (.obj { payload := p, _retries := none }) acc).1) q

/-- `n` successive `getItem(true)` calls, collecting the returned
items in call order. -/
def takeN : Nat → QueueState α → List (Item α)
  | 0, _ => []
  | n + 1, q =>
    match getItem true q with
    | (none, _) => []
    | (some it, q2) => it :: takeN n q2

/-- The per-item saga of an item whose delivery always fails, driven
by `onDeliveryFailure` for at most `fuel` attempts: each entry is the
item as attempted, paired with the backoff delay scheduled after that
failed attempt (`none` when the attempt ends in a permanent drop). -/
def sagaAttempts : Nat → Item α → List (Item α × Option Nat)
  | 0, _ => []
  | fuel + 1, it =>
    match onDeliveryFailure it with
    | .reschedule it2 d => (it, some d) :: sagaAttempts fuel it2
    | .drop => [(it, none)]

/-- How a sink fault is handled, depending on where the handler was
invoked from. -/
inductive FaultHandling where
  | logOnly : FaultHandling
  | retryWithBackoff (delay : Nat) : FaultHandling
  | dropLogged : FaultHandling
deriving DecidableEq

/-- Fault handling in the `itemAdded` listener installed by
`registerHandler` (line 177): the rejection is only logged. -/
def listenerFaultHandling : FaultHandling :=
  .logOnly

/-- Fault handling when the handler faults inside the processing
loop's `catch` (lines 119-130). -/
def loopFaultHandling (item : Item α) : FaultHandling :=
  match onDeliveryFailure item with
  | .reschedule _ d => .retryWithBackoff d
  | .drop => .dropLogged

/-- Handler invocations caused by the `itemAdded` listener that
`registerHandler` installs (lines 175-178), given the events emitted
by a call: one invocation per `itemAdded` event when a handler is
registered. -/
def listenerCalls (handlerRegistered : Bool) (events : List (Event α)) : List (Item α) :=
  if handlerRegistered then
    events.filterMap (fun e =>
      match e with
      | .itemAdded it => some it
      | .discarded _ => none)
  else []

/-- All handler invocations triggered by one `addItem` call on a queue
with a registered handler: the listener reaction to the emitted
events, followed by the processing loop's delivery attempts. -/
def submitWithHandlerCalls (ok : Item α → Bool) (v : JSVal α) (q : QueueState α) :
    List (Item α) :=
  let step := addItem v q
  let loop := processQueue ok step.1
  listenerCalls q.handler step.2.2 ++ loop.2.1

/-! ## Helper lemmas -/

/-- `addAllObjs` unfolds one submission at a time. -/
lemma addAllObjs_cons (p : α) (ps : List α) (q : QueueState α) :
    addAllObjs (p :: ps) q =
      addAllObjs ps (addItem (.obj { payload := p, _retries := none }) q).1 :=
  rfl

/-- `addAllObjs` on the empty list is the identity. -/
lemma addAllObjs_nil (q : QueueState α) : addAllObjs ([] : List α) q = q :=
  rfl

/-- An accepted object submission appends to the buffer tail, saves,
and leaves every other field alone. -/
lemma addItem_obj_accepted (it : Item α) (q : QueueState α)
    (h : ¬(q.maxSize > 0 ∧ q.data.length ≥ q.maxSize)) :
    addItem (.obj it) q =
      ({ q with data := q.data ++ [{ it with _retries := some 0 }],
                file := saveData (q.data ++ [{ it with _retries := some 0 }]) },
        none, [.itemAdded { it with _retries := some 0 }]) := by
  simp [addItem, h]

/-- `addItem_obj_accepted` specialized to a fresh caller payload
(an object without a `_retries` field). -/
lemma addItem_payload_accepted (p : α) (q : QueueState α)
    (h : ¬(q.maxSize > 0 ∧ q.data.length ≥ q.maxSize)) :
    addItem (.obj { payload := p, _retries := none }) q =
      ({ q with data := q.data ++ [{ payload := p, _retries := some 0 }],
                file := saveData (q.data ++ [{ payload := p, _retries := some 0 }]) },
        none, [.itemAdded { payload := p, _retries := some 0 }]) := by
  simp [addItem, h]

/-- A submission to a full buffer goes to the discard list only. -/
lemma addItem_obj_discarded (it : Item α) (q : QueueState α)
    (h : q.maxSize > 0 ∧ q.data.length ≥ q.maxSize) :
    addItem (.obj it) q =
      ({ q with discardedItems := q.discardedItems ++ [.obj it] }, none,
        [.discarded (.obj it)]) := by
  simp [addItem, h]

/-- On an unbounded queue (`maxSize = 0`) every submission is accepted:
the buffer grows by the submitted payloads in order, each with its
retry counter set to 0, and the sink configuration, processing flag,
capacity and discard list are untouched. -/
lemma addAllObjs_maxSize_zero (ps : List α) :
    ∀ q : QueueState α, q.maxSize = 0 →
      (addAllObjs ps q).data =
        q.data ++ ps.map (fun p => { payload := p, _retries := some 0 }) ∧
      (addAllObjs ps q).maxSize = 0 ∧
      (addAllObjs ps q).handler = q.handler ∧
      (addAllObjs ps q).webhookUrl = q.webhookUrl ∧
      (addAllObjs ps q).processing = q.processing ∧
      (addAllObjs ps q).discardedItems = q.discardedItems := by
  induction ps with
  | nil =>
    intro q hm
    simp [addAllObjs_nil, hm]
  | cons p ps ih =>
    intro q hm
    have hcond : ¬(q.maxSize > 0 ∧ q.data.length ≥ q.maxSize) := by
      simp [hm]
    rw [addAllObjs_cons, addItem_payload_accepted _ _ hcond]
    obtain ⟨h1, h2, h3, h4, h5, h6⟩ :=
      ih { q with data := q.data ++ [{ payload := p, _retries := some 0 }],
                  file := saveData (q.data ++ [{ payload := p, _retries := some 0 }]) } hm
    refine ⟨?_, h2, h3, h4, h5, h6⟩
    rw [h1]
    simp

/-- On a bounded queue (`maxSize > 0`) whose buffer is within capacity,
submitting a list of payloads accepts exactly the first
`maxSize - length` of them (appended in order, counters set to 0) and
routes the rest, in order and untouched, to the discard list. -/
lemma addAllObjs_bounded (ps : List α) :
    ∀ q : QueueState α, 0 < q.maxSize → q.data.length ≤ q.maxSize →
      (addAllObjs ps q).data =
        q.data ++ (ps.take (q.maxSize - q.data.length)).map
          (fun p => { payload := p, _retries := some 0 }) ∧
      (addAllObjs ps q).discardedItems =
        q.discardedItems ++ (ps.drop (q.maxSize - q.data.length)).map
          (fun p => (.obj { payload := p, _retries := none } : JSVal α)) ∧
      (addAllObjs ps q).maxSize = q.maxSize := by
  induction ps with
  | nil =>
    intro q hpos hle
    simp [addAllObjs_nil]
  | cons p ps ih =>
    intro q hpos hle
    by_cases hfull : q.data.length ≥ q.maxSize
    · have hz : q.maxSize - q.data.length = 0 := by omega
      rw [addAllObjs_cons, addItem_obj_discarded _ _ ⟨hpos, hfull⟩]
      obtain ⟨h1, h2, h3⟩ :=
        ih { q with discardedItems :=
              q.discardedItems ++ [.obj { payload := p, _retries := none }] } hpos hle
      refine ⟨?_, ?_, h3⟩
      · rw [h1, hz]
        simp
      · rw [h2, hz]
        simp
    · have hlt : q.data.length < q.maxSize := by omega
      have hcond : ¬(q.maxSize > 0 ∧ q.data.length ≥ q.maxSize) := by
        intro hc
        exact hfull hc.2
      rw [addAllObjs_cons, addItem_payload_accepted _ _ hcond]
      obtain ⟨h1, h2, h3⟩ :=
        ih { q with data := q.data ++ [{ payload := p, _retries := some 0 }],
                    file := saveData (q.data ++ [{ payload := p, _retries := some 0 }]) }
          hpos (by simp; omega)
      have hsub : q.maxSize - q.data.length = (q.maxSize - (q.data.length + 1)) + 1 := by
        omega
      refine ⟨?_, ?_, h3⟩
      · rw [h1, hsub]
        simp [List.take_succ_cons]
      · rw [h2, hsub]
        simp [List.drop_succ_cons]

/-- `normalizeItem` is idempotent on lists. -/
lemma map_normalizeItem_idem (l : List (Item α)) :
    (l.map normalizeItem).map normalizeItem = l.map normalizeItem := by
  induction l with
  | nil => rfl
  | cons x xs ih =>
    simp only [List.map_cons]
    rw [ih]
    rfl

/-- `n` successive removing `getItem` calls on a buffer of length `n`
return exactly the buffer, in order. -/
lemma takeN_data : ∀ (l : List (Item α)) (q : QueueState α), q.data = l →
    takeN l.length q = l := by
  intro l
  induction l with
  | nil => intro q h; simp [takeN]
  | cons x xs ih =>
    intro q h
    simp only [List.length_cons, takeN, getItem, h]
    exact congrArg (x :: ·) (ih { q with data := xs } rfl)

/-- Projecting the payloads back out of freshly accepted items gives
the submitted payload sequence. -/
lemma map_payload_mk (ps : List α) :
    (ps.map (fun p => ({ payload := p, _retries := some 0 } : Item α))).map
      Item.payload = ps := by
  induction ps with
  | nil => rfl
  | cons x xs ih =>
    simp only [List.map_cons]
    rw [ih]

/-- `normalizeItem` preserves payloads on lists. -/
lemma map_payload_normalize (l : List (Item α)) :
    (l.map normalizeItem).map Item.payload = l.map Item.payload := by
  induction l with
  | nil => rfl
  | cons x xs ih =>
    simp only [List.map_cons]
    rw [ih]
    rfl

/-- `normalizeItem` preserves the effective retry counter on lists. -/
lemma map_retriesD_normalize (l : List (Item α)) :
    (l.map normalizeItem).map (fun it => it._retries.getD 0) =
      l.map (fun it => it._retries.getD 0) := by
  induction l with
  | nil => rfl
  | cons x xs ih =>
    simp only [List.map_cons]
    rw [ih]
    rfl

/-- Every item popped by the processing loop is attempted exactly once,
in pop order, whatever the delivery outcomes. -/
lemma runLoop_attempts (ok : Item α → Bool) : ∀ l : List (Item α),
    (runLoop ok l).1 = l := by
  intro l
  induction l with
  | nil => rfl
  | cons x xs ih =>
    by_cases h : ok x
    · simp [runLoop, h, ih]
    · cases h2 : onDeliveryFailure x with
      | reschedule it2 d => simp [runLoop, h, h2, ih]
      | drop => simp [runLoop, h, h2, ih]

/-! ## Claim theorems -/

/-- Claim C1: on a queue with no sink configured and `maxSize = 0`,
submitting any sequence of items appends them to the buffer tail with
retry counter 0 and discards nothing, the processing loop consumes
nothing (no sink), and successive removing `getItem` calls return the
items in exact submission order. -/
theorem C1_fifo_order (ps : List α) :
    (addAllObjs ps (createQueue 0 0 (.missing : FileContent α))).data =
      ps.map (fun p => { payload := p, _retries := some 0 }) ∧
    takeN ps.length (addAllObjs ps (createQueue 0 0 (.missing : FileContent α))) =
      ps.map (fun p => { payload := p, _retries := some 0 }) ∧
    (takeN ps.length (addAllObjs ps (createQueue 0 0 (.missing : FileContent α)))).map
      Item.payload = ps ∧
    (∀ ok : Item α → Bool,
      processQueue ok (addAllObjs ps (createQueue 0 0 (.missing : FileContent α))) =
        (addAllObjs ps (createQueue 0 0 (.missing : FileContent α)), [], [])) ∧
    (addAllObjs ps (createQueue 0 0 (.missing : FileContent α))).discardedItems = [] := by
  obtain ⟨h1, h2, h3, h4, h5, h6⟩ :=
    addAllObjs_maxSize_zero ps (createQueue 0 0 (.missing : FileContent α)) rfl
  have hdata : (addAllObjs ps (createQueue 0 0 (.missing : FileContent α))).data =
      ps.map (fun p => { payload := p, _retries := some 0 }) := by
    rw [h1]
    rfl
  have htake : takeN ps.length (addAllObjs ps (createQueue 0 0 (.missing : FileContent α))) =
      ps.map (fun p => { payload := p, _retries := some 0 }) := by
    have := takeN_data (ps.map (fun p => { payload := p, _retries := some 0 }))
      (addAllObjs ps (createQueue 0 0 (.missing : FileContent α))) hdata
    rwa [List.length_map] at this
  refine ⟨hdata, htake, ?_, ?_, ?_⟩
  · rw [htake]
    exact map_payload_mk ps
  · intro ok
    have hproc : (addAllObjs ps (createQueue 0 0 (.missing : FileContent α))).processing
        = false := by
      rw [h5]
      rfl
    have hhand : (addAllObjs ps (createQueue 0 0 (.missing : FileContent α))).handler
        = false := by
      rw [h3]
      rfl
    have hweb : (addAllObjs ps (createQueue 0 0 (.missing : FileContent α))).webhookUrl
        = none := by
      rw [h4]
      rfl
    simp [processQueue, hproc, hhand, hweb]
  · rw [h6]
    rfl

/-- Claim C2: an item entering delivery with retry counter 0 (as set by
`addItem`) whose delivery always fails is attempted exactly 6 times
(1 initial + `MAX_RETRIES = 5` retries) with backoff delays
100, 200, 400, 800, 1600 scheduled before the respective retries; the
6th failed attempt takes the `drop` branch, which touches neither the
buffer nor the discard list, and no further attempt ever happens. -/
theorem C2_retry_ceiling (p : α) :
    MAX_RETRIES = 5 ∧
    sagaAttempts 6 { payload := p, _retries := some 0 } =
      [({ payload := p, _retries := some 0 }, some 100),
       ({ payload := p, _retries := some 1 }, some 200),
       ({ payload := p, _retries := some 2 }, some 400),
       ({ payload := p, _retries := some 3 }, some 800),
       ({ payload := p, _retries := some 4 }, some 1600),
       ({ payload := p, _retries := some 5 }, none)] ∧
    (sagaAttempts 6 { payload := p, _retries := some 0 }).length = 6 ∧
    (∀ fuel : Nat, sagaAttempts (fuel + 6) { payload := p, _retries := some 0 } =
      sagaAttempts 6 { payload := p, _retries := some 0 }) ∧
    onDeliveryFailure { payload := p, _retries := some MAX_RETRIES } =
      (.drop : FailAction α) ∧
    (∀ (data : List (Item α)) (discarded : List (JSVal α)),
      dropItemEffect data discarded = (data, discarded)) := by
  refine ⟨rfl, ?_, ?_, ?_, rfl, fun _ _ => rfl⟩
  · simp [sagaAttempts, onDeliveryFailure, MAX_RETRIES]
  · simp [sagaAttempts, onDeliveryFailure, MAX_RETRIES]
  · intro fuel
    simp [sagaAttempts, onDeliveryFailure, MAX_RETRIES]

/-- Claim C8: `drain` empties the buffer, persists the now-empty
buffer, and cancels the periodic persistence timer, while leaving the
discard list (and the sink configuration and capacity) unchanged; on
an already-empty buffer it is a no-op that still leaves length 0. -/
theorem C8_drain_clears_buffer (q : QueueState α) :
    (drain q).data = [] ∧
    getLength (drain q) = 0 ∧
    (drain q).file = saveData ([] : List (Item α)) ∧
    (drain q).persistenceTimer = false ∧
    getDiscardedItems (drain q) = getDiscardedItems q ∧
    (drain q).handler = q.handler ∧
    (drain q).webhookUrl = q.webhookUrl ∧
    (drain q).maxSize = q.maxSize ∧
    drain (drain q) = drain q :=
  ⟨rfl, rfl, rfl, rfl, rfl, rfl, rfl, rfl, rfl⟩

/-- Claim C10: `addItem null` passes the undefined-only input check
(it never raises the "Cannot add undefined" error): on a non-full
queue it raises a `TypeError` when the engine sets `_retries` on
`null`, leaving the buffer and the discard list unchanged; on a full
queue (`maxSize > 0` and `length >= maxSize`) the `null` is silently
appended to the discard list with no error. -/
theorem C10_addItem_null (q : QueueState α) :
    (¬(q.maxSize > 0 ∧ q.data.length ≥ q.maxSize) →
      addItem .null q = (q, some (.typeError "Cannot set properties of null"), [])) ∧
    ((q.maxSize > 0 ∧ q.data.length ≥ q.maxSize) →
      addItem .null q =
        ({ q with discardedItems := q.discardedItems ++ [.null] }, none,
          [.discarded .null])) ∧
    (addItem (.null : JSVal α) q).2.1 ≠
      some (.typeError "Cannot add undefined to the queue.") := by
  refine ⟨fun h => by simp [addItem, h], fun h => by simp [addItem, h], ?_⟩
  by_cases h : q.maxSize > 0 ∧ q.data.length ≥ q.maxSize
  · simp [addItem, h]
  · simp [addItem, h]

/-- Witness for C10 at two concrete queues: an empty unbounded queue
(the non-full case) and a one-slot queue holding one item (the full
case). -/
theorem C10_addItem_null_witness :
    addItem .null (createQueue 0 0 (.missing : FileContent Nat)) =
      (createQueue 0 0 (.missing : FileContent Nat),
        some (.typeError "Cannot set properties of null"), []) ∧
    addItem .null
        { data := [{ payload := (5 : Nat), _retries := some 0 }], discardedItems := [],
          maxSize := 1, handler := false, webhookUrl := none, webhookMethod := "POST",
          webhookApiKey := none, persistenceTimer := false, file := .missing,
          processing := false } =
      ({ data := [{ payload := (5 : Nat), _retries := some 0 }], discardedItems := [.null],
          maxSize := 1, handler := false, webhookUrl := none, webhookMethod := "POST",
          webhookApiKey := none, persistenceTimer := false, file := .missing,
          processing := false }, none, [.discarded .null]) := by
  constructor
  · exact (C10_addItem_null (createQueue 0 0 (.missing : FileContent Nat))).1 (by decide)
  · exact (C10_addItem_null
      { data := [{ payload := (5 : Nat), _retries := some 0 }], discardedItems := [],
        maxSize := 1, handler := false, webhookUrl := none, webhookMethod := "POST",
        webhookApiKey := none, persistenceTimer := false, file := .missing,
        processing := false }).2.1 (by decide)

/-- Counterexample to claim C3 as stated: the retry scheduler's
reinsertion does not preserve the invariant `buffer length ≤ maxSize`.
With `maxSize = 1` and a buffer already holding one item (so the
invariant holds), firing the retry timer unshifts the failed item and
the buffer length becomes 2 > 1. -/
theorem C3_counterexample :
    ¬((fireRetry { payload := (1 : Nat), _retries := some 1 }
        [{ payload := (2 : Nat), _retries := some 0 }]).length ≤ 1) := by
  decide

/-- Claim C3 (amended): for `maxSize > 0`, the invariant
`buffer length ≤ maxSize` is preserved by `addItem` (which rejects to
the discard list when full) and re-established by `loadData` (which
truncates a longer persisted sequence); the retry scheduler's
reinsertion instead grows the buffer by exactly one item
unconditionally, so it preserves the invariant only when the buffer is
strictly below capacity when the backoff timer fires (from a full
buffer it yields length `maxSize + 1`). -/
theorem C3_amended_invariant (q : QueueState α) (hpos : 0 < q.maxSize)
    (hinv : q.data.length ≤ q.maxSize) :
    (∀ v : JSVal α, ((addItem v q).1).data.length ≤ q.maxSize ∧
      ((addItem v q).1).maxSize = q.maxSize) ∧
    (∀ f : FileContent α, (loadData q.maxSize f).length ≤ q.maxSize) ∧
    (∀ it : Item α, (fireRetry it q.data).length = q.data.length + 1) ∧
    (∀ it : Item α, q.data.length < q.maxSize →
      (fireRetry it q.data).length ≤ q.maxSize) := by
  refine ⟨?_, ?_, fun it => rfl, fun it h => ?_⟩
  · intro v
    cases v with
    | undef => exact ⟨hinv, rfl⟩
    | null =>
      by_cases h : q.maxSize > 0 ∧ q.data.length ≥ q.maxSize
      · rw [addItem, if_pos h]
        exact ⟨hinv, rfl⟩
      · rw [addItem, if_neg h]
        exact ⟨hinv, rfl⟩
    | obj it =>
      by_cases h : q.maxSize > 0 ∧ q.data.length ≥ q.maxSize
      · rw [addItem_obj_discarded _ _ h]
        exact ⟨hinv, rfl⟩
      · rw [addItem_obj_accepted _ _ h]
        have hlt : q.data.length < q.maxSize := by
          rcases not_and_or.mp h with h1 | h2
          · omega
          · omega
        constructor
        · simp
          omega
        · rfl
  · intro f
    cases f with
    | missing => simp [loadData]
    | corrupt => simp [loadData]
    | snapshot items =>
      simp only [loadData]
      split
      · simp only [List.length_take]
        exact min_le_left _ _
      · rename_i hcond
        rcases not_and_or.mp hcond with h1 | h2
        · omega
        · simp only [not_lt] at h2
          exact h2
  · rw [fireRetry]
    simp
    omega

/-- Witness for the amended C3 at a concrete bounded queue of capacity
2 holding no items. -/
theorem C3_amended_witness :
    ((addItem (.obj { payload := (7 : Nat), _retries := none })
        (createQueue 2 0 (.missing : FileContent Nat))).1).data.length ≤ 2 ∧
    (loadData 2 (.corrupt : FileContent Nat)).length ≤ 2 ∧
    (fireRetry { payload := (7 : Nat), _retries := some 1 }
      (createQueue 2 0 (.missing : FileContent Nat)).data).length = 0 + 1 := by
  obtain ⟨h1, h2, h3, h4⟩ :=
    C3_amended_invariant (createQueue 2 0 (.missing : FileContent Nat))
      (by decide) (by decide)
  exact ⟨(h1 (.obj { payload := (7 : Nat), _retries := none })).1,
    h2 .corrupt, h3 { payload := (7 : Nat), _retries := some 1 }⟩

/-- Claim C4: a failed item reinserted at the head of the buffer by the
retry timer is attempted by the processing loop before every item that
was still pending in the buffer when the timer fired: its attempt
position is 0, while any pending item's is some `j + 1`. -/
theorem C4_retry_before_newer (ok : Item α → Bool) (a b : Item α)
    (buf : List (Item α)) (hb : b ∈ buf) :
    (runLoop ok (fireRetry a buf)).1.head? = some a ∧
    ∃ j : Nat, (runLoop ok (fireRetry a buf)).1.get? (j + 1) = some b := by
  have h1 : (runLoop ok (fireRetry a buf)).1 = a :: buf := by
    rw [runLoop_attempts]
    rfl
  constructor
  · rw [h1]
    rfl
  · obtain ⟨n, hn⟩ := List.get?_of_mem hb
    refine ⟨n, ?_⟩
    rw [h1]
    simpa using hn

/-- Witness for C4: a retried item (counter 1) reinserted ahead of a
pending fresh item is attempted first. -/
theorem C4_retry_before_newer_witness :
    (runLoop (fun _ => true)
      (fireRetry { payload := (1 : Nat), _retries := some 1 }
        [{ payload := (2 : Nat), _retries := some 0 }])).1.head? =
      some { payload := (1 : Nat), _retries := some 1 } ∧
    ∃ j : Nat, (runLoop (fun _ => true)
      (fireRetry { payload := (1 : Nat), _retries := some 1 }
        [{ payload := (2 : Nat), _retries := some 0 }])).1.get? (j + 1) =
      some { payload := (2 : Nat), _retries := some 0 } :=
  C4_retry_before_newer (fun _ => true) { payload := 1, _retries := some 1 }
    { payload := 2, _retries := some 0 }
    [{ payload := 2, _retries := some 0 }] (List.mem_singleton.mpr rfl)

/-- Claim C5: on a queue with `maxSize = k > 0` and no sink, submitting
`k + 1` items leaves the buffer holding the first `k` (in order, with
counters 0) and exactly the `(k+1)`-th item on the discard list;
concretely with `maxSize = 2` and payloads 1, 2, 3: length 2, discard
list `[3]`, a removing `getItem` returns payload 1 leaving length 1,
and a peeking `getItem` then returns payload 2 leaving length 1. -/
theorem C5_overflow (k : Nat) (ps : List α) (hk : 0 < k)
    (hlen : ps.length = k + 1) :
    (addAllObjs ps (createQueue k 0 (.missing : FileContent α))).data =
      (ps.take k).map (fun p => { payload := p, _retries := some 0 }) ∧
    getLength (addAllObjs ps (createQueue k 0 (.missing : FileContent α))) = k ∧
    (addAllObjs ps (createQueue k 0 (.missing : FileContent α))).discardedItems =
      (ps.drop k).map (fun p => (.obj { payload := p, _retries := none } : JSVal α)) ∧
    (addAllObjs ps (createQueue k 0 (.missing : FileContent α))).discardedItems.length
      = 1 ∧
    (getLength (addAllObjs [1, 2, 3] (createQueue 2 0 (.missing : FileContent Nat))) = 2 ∧
     (addAllObjs [1, 2, 3] (createQueue 2 0 (.missing : FileContent Nat))).discardedItems =
       [.obj { payload := 3, _retries := none }] ∧
     (getItem true (addAllObjs [1, 2, 3] (createQueue 2 0 (.missing : FileContent Nat)))).1 =
       some { payload := 1, _retries := some 0 } ∧
     getLength (getItem true
       (addAllObjs [1, 2, 3] (createQueue 2 0 (.missing : FileContent Nat)))).2 = 1 ∧
     (getItem false (getItem true
       (addAllObjs [1, 2, 3] (createQueue 2 0 (.missing : FileContent Nat)))).2).1 =
       some { payload := 2, _retries := some 0 } ∧
     getLength (getItem false (getItem true
       (addAllObjs [1, 2, 3] (createQueue 2 0 (.missing : FileContent Nat)))).2).2 = 1) := by
  obtain ⟨h1, h2, h3⟩ :=
    addAllObjs_bounded ps (createQueue k 0 (.missing : FileContent α)) hk (by simp [createQueue, loadData])
  have hdata : (addAllObjs ps (createQueue k 0 (.missing : FileContent α))).data =
      (ps.take k).map (fun p => { payload := p, _retries := some 0 }) := by
    rw [h1]
    show [] ++ (ps.take (k - 0)).map _ = _
    simp
  have hdisc : (addAllObjs ps (createQueue k 0 (.missing : FileContent α))).discardedItems =
      (ps.drop k).map (fun p => (.obj { payload := p, _retries := none } : JSVal α)) := by
    rw [h2]
    show [] ++ (ps.drop (k - 0)).map _ = _
    simp
  refine ⟨hdata, ?_, hdisc, ?_, ?_⟩
  · rw [getLength, hdata]
    simp
    omega
  · rw [hdisc]
    simp
    omega
  · exact ⟨by decide, by decide, by decide, by decide, by decide, by decide⟩

/-- Witness for C5 at `k = 2` and the submissions of the concrete
scenario. -/
theorem C5_overflow_witness :
    getLength (addAllObjs [1, 2, 3] (createQueue 2 0 (.missing : FileContent Nat))) = 2 ∧
    (addAllObjs [1, 2, 3]
      (createQueue 2 0 (.missing : FileContent Nat))).discardedItems.length = 1 := by
  obtain ⟨h1, h2, h3, h4, h5⟩ :=
    C5_overflow 2 [1, 2, 3] (by decide) (by decide)
  exact ⟨h2, h4⟩

/-- Claim C6: `registerWebhook` on a queue with a handler registered
throws the configuration error and changes nothing, and
`registerHandler` on a queue with a webhook registered throws the
configuration error and changes nothing — in both cases the error is
produced by the call itself, before any mutation, so the previously
registered sink stays active. -/
theorem C6_mutual_exclusivity (q : QueueState α) (url apiKey method : String)
    (hm : (["GET", "POST"].contains (upperString method)) = true) :
    (q.handler = true →
      registerWebhook url apiKey method q =
        (q, some (.error "Cannot register a webhook when a handler is already registered."))) ∧
    (q.webhookUrl.isSome = true →
      registerHandler q =
        (q, some (.error "Cannot register a handler when a webhook is already registered."))) := by
  constructor
  · intro hh
    simp only [registerWebhook]
    rw [if_neg (not_not_intro hm), if_pos hh]
  · intro hw
    simp only [registerHandler]
    rw [if_pos hw]

/-- Witness for C6 at two concrete queues, one with a handler
registered and one with a webhook registered. -/
theorem C6_mutual_exclusivity_witness :
    registerWebhook "u" "k" "POST"
        { createQueue 0 0 (.missing : FileContent Nat) with handler := true } =
      ({ createQueue 0 0 (.missing : FileContent Nat) with handler := true },
        some (.error "Cannot register a webhook when a handler is already registered.")) ∧
    registerHandler
        { createQueue 0 0 (.missing : FileContent Nat) with webhookUrl := some "u" } =
      ({ createQueue 0 0 (.missing : FileContent Nat) with webhookUrl := some "u" },
        some (.error "Cannot register a handler when a webhook is already registered.")) :=
  ⟨(C6_mutual_exclusivity
      { createQueue 0 0 (.missing : FileContent Nat) with handler := true }
      "u" "k" "POST" (by decide)).1 rfl,
   (C6_mutual_exclusivity
      { createQueue 0 0 (.missing : FileContent Nat) with webhookUrl := some "u" }
      "u" "k" "POST" (by decide)).2 rfl⟩

/-- Counterexample to claim C7 as stated: for a buffer longer than a
positive `maxSize` (reachable, since the unguarded retry reinsertion
can push the buffer past capacity and the periodic timer then persists
it), the save/load round trip does not reproduce the sequence —
`loadData` truncates to `maxSize` items (src/index.js lines 67-69).
With `maxSize = 1` and two buffered items, only the first survives and
the payload sequence is not preserved. -/
theorem C7_counterexample :
    loadData 1 (saveData [{ payload := (1 : Nat), _retries := some 0 },
        { payload := (2 : Nat), _retries := some 0 }]) =
      [{ payload := (1 : Nat), _retries := some 0 }] ∧
    (loadData 1 (saveData [{ payload := (1 : Nat), _retries := some 0 },
        { payload := (2 : Nat), _retries := some 0 }])).map Item.payload ≠
      [{ payload := (1 : Nat), _retries := some 0 },
        { payload := (2 : Nat), _retries := some 0 }].map Item.payload := by
  decide

/-- Claim C7 (amended): `saveData` followed by `loadData` with the same
`maxSize` reproduces an equivalent ordered sequence — the payloads in
order and each item's effective `_retries` counter preserved — for
every buffer within capacity (`maxSize = 0` or `length ≤ maxSize`);
for a buffer longer than a positive `maxSize` the round trip instead
yields exactly the first `maxSize` normalized items (`loadData`
truncates); and `loadData` of a missing or unparsable file yields the
empty buffer (no error is raised: `loadData` is total). -/
theorem C7_roundtrip_amended (maxSize : Nat) (buf : List (Item α)) :
    ((maxSize = 0 ∨ buf.length ≤ maxSize) →
      loadData maxSize (saveData buf) = buf.map normalizeItem ∧
      (loadData maxSize (saveData buf)).map Item.payload = buf.map Item.payload ∧
      (loadData maxSize (saveData buf)).map (fun it => it._retries.getD 0) =
        buf.map (fun it => it._retries.getD 0)) ∧
    (0 < maxSize → maxSize < buf.length →
      loadData maxSize (saveData buf) = (buf.map normalizeItem).take maxSize) ∧
    loadData maxSize (.missing : FileContent α) = [] ∧
    loadData maxSize (.corrupt : FileContent α) = [] := by
  refine ⟨?_, ?_, rfl, rfl⟩
  · intro h
    have hround : loadData maxSize (saveData buf) = buf.map normalizeItem := by
      simp only [saveData, loadData, map_normalizeItem_idem]
      have hcond : ¬(maxSize > 0 ∧ (buf.map normalizeItem).length > maxSize) := by
        simp only [List.length_map]
        rcases h with h0 | hle
        · omega
        · omega
      rw [if_neg hcond]
    refine ⟨hround, ?_, ?_⟩
    · rw [hround]
      exact map_payload_normalize buf
    · rw [hround]
      exact map_retriesD_normalize buf
  · intro h1 h2
    simp only [saveData, loadData, map_normalizeItem_idem]
    have hcond : maxSize > 0 ∧ (buf.map normalizeItem).length > maxSize := by
      simp only [List.length_map]
      exact ⟨h1, h2⟩
    rw [if_pos hcond]

/-- Witness for the amended C7 on a two-item buffer (one item without
a `_retries` field, one with counter 3): it round-trips intact at
capacity 2 and is truncated to its first item at capacity 1. -/
theorem C7_roundtrip_amended_witness :
    loadData 2 (saveData [{ payload := (1 : Nat), _retries := none },
        { payload := (2 : Nat), _retries := some 3 }]) =
      [{ payload := (1 : Nat), _retries := some 0 },
        { payload := (2 : Nat), _retries := some 3 }] ∧
    loadData 1 (saveData [{ payload := (1 : Nat), _retries := none },
        { payload := (2 : Nat), _retries := some 3 }]) =
      ([{ payload := (1 : Nat), _retries := none },
        { payload := (2 : Nat), _retries := some 3 }].map normalizeItem).take 1 ∧
    loadData 2 (.missing : FileContent Nat) = [] := by
  refine ⟨?_, ?_, ?_⟩
  · have h := (C7_roundtrip_amended 2 [{ payload := (1 : Nat), _retries := none },
      { payload := (2 : Nat), _retries := some 3 }]).1 (by decide)
    rw [h.1]
    rfl
  · exact (C7_roundtrip_amended 1 [{ payload := (1 : Nat), _retries := none },
      { payload := (2 : Nat), _retries := some 3 }]).2.1 (by decide) (by decide)
  · exact (C7_roundtrip_amended 2 ([] : List (Item Nat))).2.2.1

/-- Claim C9: on a queue with a local handler registered (empty buffer,
unbounded), one accepted submission invokes the handler twice with the
accepted item — once through the `itemAdded` listener installed by
`registerHandler`, where a fault is only logged, and once through the
processing loop's delivery attempt, where a fault triggers retry with
backoff (here delay 100 for a fresh item) — so delivery to a handler
sink is not once-per-item. -/
theorem C9_handler_double_invocation (ok : Item α → Bool) (p : α)
    (q : QueueState α) (hh : q.handler = true) (hw : q.webhookUrl = none)
    (hp : q.processing = false) (hd : q.data = []) (hm : q.maxSize = 0) :
    submitWithHandlerCalls ok (.obj { payload := p, _retries := none }) q =
      [{ payload := p, _retries := some 0 }, { payload := p, _retries := some 0 }] ∧
    (submitWithHandlerCalls ok (.obj { payload := p, _retries := none }) q).length = 2 ∧
    listenerFaultHandling = .logOnly ∧
    loopFaultHandling { payload := p, _retries := some 0 } =
      (.retryWithBackoff 100 : FaultHandling) := by
  have hcond : ¬(q.maxSize > 0 ∧ q.data.length ≥ q.maxSize) := by
    simp [hm]
  have hcalls : submitWithHandlerCalls ok (.obj { payload := p, _retries := none }) q =
      [{ payload := p, _retries := some 0 }, { payload := p, _retries := some 0 }] := by
    simp only [submitWithHandlerCalls]
    rw [addItem_payload_accepted _ _ hcond]
    simp [listenerCalls, processQueue, hh, hp, hd, runLoop_attempts]
  refine ⟨hcalls, ?_, rfl, ?_⟩
  · rw [hcalls]
    rfl
  · simp [loopFaultHandling, onDeliveryFailure, MAX_RETRIES]

/-- Witness for C9 at a concrete queue with a handler registered and a
delivery that succeeds. -/
theorem C9_handler_double_invocation_witness :
    submitWithHandlerCalls (fun _ => true)
        (.obj { payload := (7 : Nat), _retries := none })
        { createQueue 0 0 (.missing : FileContent Nat) with handler := true } =
      [{ payload := (7 : Nat), _retries := some 0 },
        { payload := (7 : Nat), _retries := some 0 }] ∧
    listenerFaultHandling = .logOnly :=
  ⟨(C9_handler_double_invocation (fun _ => true) 7
      { createQueue 0 0 (.missing : FileContent Nat) with handler := true }
      rfl rfl rfl rfl rfl).1,
   (C9_handler_double_invocation (fun _ => true) 7
      { createQueue 0 0 (.missing : FileContent Nat) with handler := true }
      rfl rfl rfl rfl rfl).2.2.1⟩

end DispatchQueue
